import Mathlib

/-!
Verification of the delivery-issue tracking backend (hackathon-prep).

The repository contains two parallel backend variants:
* the TypeScript/Joi variant (`src/backend/src/...`): routes `issues.ts`,
  middleware `auth.ts` / `validation.ts`, utilities `utils/auth.ts`,
  error handler with `ApiError(message, statusCode)`;
* the JavaScript/Zod variant (`src/unnamed/part_004`, `src/backend/src/lib/auth.js`):
  auth routes with a persisted revocable refresh-token store, and
  issue routes gated by `requireCustomer` / `requireSupport`.

Each handler below is a pure function of the relevant database tables
(modelled as lists of rows), the request, and the current time (milliseconds
since epoch, modelled as `Nat`).  HTTP responses are modelled by their status
code plus payload.  Library calls are embedded as follows: Prisma queries
become list operations on the row lists, `jsonwebtoken` refresh tokens become
their signed payload (`Jwt` below; signing is injective for a fixed secret),
and `Buffer.from(−, 'base64')` / `JSON.parse` are implemented byte-for-byte
in `base64DecodeNode` / `parseJson`.
-/

namespace DeliveryIssues

/-! ## Data model: enumerations (Prisma schema of the TypeScript variant) -/

/-- Prisma `IssueType` enum of the TypeScript variant. -/
inductive IssueType
  | DELIVERY_DELAY
  | PACKAGE_DAMAGED
  | PACKAGE_LOST
  | WRONG_ADDRESS
  | DELIVERY_ATTEMPTED
  | CUSTOMER_UNAVAILABLE
  | WEATHER_DELAY
  | VEHICLE_BREAKDOWN
  | OTHER
  deriving DecidableEq, Repr

/-- Prisma `Severity` enum of the TypeScript variant. -/
inductive Severity
  | LOW
  | MEDIUM
  | HIGH
  | CRITICAL
  deriving DecidableEq, Repr

/-- Prisma `Status` enum of the TypeScript variant. -/
inductive Status
  | OPEN
  | TRIAGED
  | IN_PROGRESS
  | ESCALATED
  | RESOLVED
  | CLOSED
  deriving DecidableEq, Repr

/-! ## Data model: rows

Timestamps (`DateTime` columns and `new Date()` values) are milliseconds since
epoch, as a `Nat`. -/

/-- A `User` row of the TypeScript variant (`@prisma/client` `User`). -/
structure UserTS where
  id : String
  email : String
  password : String
  name : String
  company : String
  role : String
  createdAt : Nat
  updatedAt : Nat
  deriving DecidableEq, Repr

/-- An `Issue` row of the TypeScript variant. -/
structure Issue where
  id : String
  trackingNumber : String
  type : IssueType
  severity : Severity
  status : Status
  title : String
  description : String
  customerEmail : String
  customerPhone : Option String
  assignedToId : Option String
  createdById : String
  createdAt : Nat
  updatedAt : Nat
  resolvedAt : Option Nat
  deriving DecidableEq, Repr

/-- A `users` row of the JavaScript variant (role is `CUSTOMER` or `SUPPORT`). -/
structure UserJS where
  id : String
  email : String
  passwordHash : String
  name : String
  role : String
  deriving DecidableEq, Repr

/-- An `issues` row of the JavaScript variant. -/
structure IssueJS where
  id : String
  orderId : String
  type : String
  severity : String
  status : String
  description : String
  customerId : String
  createdAt : Nat
  updatedAt : Nat
  deriving DecidableEq, Repr

/-! ## Session store of the JavaScript variant (`src/backend/src/lib/auth.js`)

`refresh_tokens` rows carry a `revoked` flag (SQL default `false`); the
`token` column is `UNIQUE` (migration `refresh_tokens_token_key`). -/

/-- A `refresh_tokens` row of the JavaScript variant. -/
structure RefreshTokenRow where
  id : String
  userId : String
  token : String
  expiresAt : Nat
  revoked : Bool
  createdAt : Nat
  deriving DecidableEq, Repr

/-- `prisma.refreshToken.findUnique({ where: { token } })`: the row whose
unique `token` column equals the given string. -/
def findUniqueToken (db : List RefreshTokenRow) (token : String) :
    Option RefreshTokenRow :=
  db.find? (fun r => r.token == token)

/-- `validateRefreshToken` (`lib/auth.js` lines 75-86): loads the row by token
and returns `null` when the row is absent, revoked, or `expiresAt < new
Date()`; otherwise returns the row. -/
def validateRefreshToken (db : List RefreshTokenRow) (token : String)
    (now : Nat) : Option RefreshTokenRow :=
  match findUniqueToken db token with
  | none => none
  | some r => if r.revoked || r.expiresAt < now then none else some r

/-- `storeRefreshToken(userId, token)` (`lib/auth.js`): inserts a row expiring
7 days from now; `revoked` takes the schema default `false`.  `id` models the
generated primary key. -/
def storeRefreshToken (db : List RefreshTokenRow) (userId token : String)
    (now : Nat) (id : String) : List RefreshTokenRow :=
  db ++ [{ id := id, userId := userId, token := token,
           expiresAt := now + 7 * 24 * 60 * 60 * 1000,
           revoked := false, createdAt := now }]

/-- `revokeRefreshToken(token)` (`lib/auth.js`): `updateMany` setting
`revoked: true` on every row with this token. -/
def revokeRefreshToken (db : List RefreshTokenRow) (token : String) :
    List RefreshTokenRow :=
  db.map (fun r => if r.token == token then { r with revoked := true } else r)

/-- `revokeAllUserTokens(userId)` (`lib/auth.js`): `updateMany` setting
`revoked: true` on every row of this user. -/
def revokeAllUserTokens (db : List RefreshTokenRow) (userId : String) :
    List RefreshTokenRow :=
  db.map (fun r => if r.userId == userId then { r with revoked := true } else r)

/-- `cleanupExpiredTokens()` (`lib/auth.js`): `deleteMany` of rows with
`expiresAt < now` or `revoked`. -/
def cleanupExpiredTokens (db : List RefreshTokenRow) (now : Nat) :
    List RefreshTokenRow :=
  db.filter (fun r => !(r.expiresAt < now || r.revoked))

/-- `POST /auth/refresh` of the JavaScript variant (`src/unnamed/part_004`
lines 445-467): `validateRefreshToken`, then 401 on `null`, else a new access
token for the token's user (the handler performs no database write). -/
def refreshRouteJS (db : List RefreshTokenRow) (token : String) (now : Nat) :
    List RefreshTokenRow × Nat :=
  match validateRefreshToken db token now with
  | none => (db, 401)
  | some _ => (db, 200)

/-- One session-store operation of the JavaScript variant, as invoked by the
auth routes (`register`/`login` store, `logout` revokes, `logout-all` revokes
by user, maintenance cleans up). -/
inductive SessionOp
  | store (userId token : String) (now : Nat) (id : String)
  | revoke (token : String)
  | revokeAll (userId : String)
  | cleanup (now : Nat)
  deriving DecidableEq, Repr

/-- Interpretation of a single `SessionOp` on the `refresh_tokens` table. -/
def applySessionOp (db : List RefreshTokenRow) : SessionOp →
    List RefreshTokenRow
  | .store u t n i => storeRefreshToken db u t n i
  | .revoke t => revokeRefreshToken db t
  | .revokeAll u => revokeAllUserTokens db u
  | .cleanup n => cleanupExpiredTokens db n

/-- Interpretation of a sequence of session-store operations. -/
def applySessionOps (db : List RefreshTokenRow) (ops : List SessionOp) :
    List RefreshTokenRow :=
  ops.foldl applySessionOp db

/-- `op` inserts a row for token `t` (the only way a row for `t` can appear). -/
def opStoresToken : SessionOp → String → Prop
  | .store _ t' _ _, t => t' = t
  | .revoke _, _ => False
  | .revokeAll _, _ => False
  | .cleanup _, _ => False

/-- Every row for token `t` in `db` is revoked. -/
def allRevoked (db : List RefreshTokenRow) (t : String) : Prop :=
  ∀ r ∈ db, r.token = t → r.revoked = true

/-! ## Refresh route of the TypeScript variant (`src/unnamed/part_004`
lines 682-725, `routes/auth.ts`)

The TypeScript variant's refresh tokens are JWTs signed with
`JWT_REFRESH_SECRET` (`utils/auth.ts` `generateRefreshToken`: payload
`{ jti }` with an `exp` claim).  The signed token is modelled by its payload
(`Jwt`); signing with a fixed secret is injective, so equality of payloads
models equality of token strings.  `jwt.verify` fails exactly when the clock
in whole seconds has reached the `exp` claim (`jsonwebtoken`:
`clockTimestamp >= exp`). -/

/-- The payload of a signed refresh token of the TypeScript variant. -/
structure Jwt where
  jti : String
  expSec : Nat
  deriving DecidableEq, Repr

/-- Outcome of `verifyRefreshToken` (`utils/auth.ts`): `jwt.verify` succeeds
while `Math.floor(nowMs / 1000) < exp`. -/
def verifyRefreshTokenOk (t : Jwt) (nowMs : Nat) : Bool :=
  nowMs / 1000 < t.expSec

/-- A `RefreshToken` row of the TypeScript variant (no `revoked` column is
consulted by its routes; logout deletes rows instead). -/
structure StoredRefreshToken where
  id : String
  token : Jwt
  userId : String
  expiresAt : Nat
  deriving DecidableEq, Repr

/-- `POST /auth/refresh` of the TypeScript variant (`src/unnamed/part_004`
lines 682-725): verify the JWT (401 on failure), look the token up (401 when
absent), delete the row and 401 when `expiresAt < new Date()`, else 200 with
a new access token for the row's user — and no database write.  The result is
the table after the call, the HTTP status, and the user the new access token
is issued for. -/
def refreshRouteTS (db : List StoredRefreshToken) (tok : Jwt) (nowMs : Nat) :
    List StoredRefreshToken × Nat × Option String :=
  if !verifyRefreshTokenOk tok nowMs then
    (db, 401, none)
  else
    match db.find? (fun r => r.token == tok) with
    | none => (db, 401, none)
    | some r =>
      if r.expiresAt < nowMs then
        (db.filter (fun x => x.id != r.id), 401, none)
      else
        (db, 200, some r.userId)

/-! ## Authorization middleware

`middleware/auth.ts` (TypeScript variant) and `middleware/auth.js`
(JavaScript variant).  `authenticate` attaches the user to the request; the
routes below therefore take the authenticated caller as `Option UserTS` /
`Option UserJS` (`none` models a request whose authentication failed is — no
route body runs in that case, the middleware already answered 401). -/

/-- Result of a gate middleware: pass the request on, or answer with an HTTP
status and error string. -/
inductive MwResult
  | next
  | halt (status : Nat) (error : String)
  deriving DecidableEq, Repr

/-- `authorize(roles)` (`middleware/auth.ts` lines 93-113): 401 when no user
is attached, 403 when the attached user's role is not in the allow-list,
otherwise pass. -/
def authorize (roles : List String) (reqUser : Option UserTS) : MwResult :=
  match reqUser with
  | none => .halt 401 "Authentication required"
  | some u =>
    if !(roles.contains u.role) then
      .halt 403 "Insufficient permissions"
    else
      .next

/-- `requireRole(...roles)` (JavaScript variant `middleware/auth.js`): 401
`UnauthorizedError` when no user is attached, 403 `ForbiddenError` when the
attached user's role is not allowed, otherwise pass. -/
def requireRole (roles : List String) (reqUser : Option UserJS) : MwResult :=
  match reqUser with
  | none => .halt 401 "Authentication required"
  | some u =>
    if !(roles.contains u.role) then
      .halt 403 "Insufficient permissions"
    else
      .next

/-! ## Issue routes of the TypeScript variant (`routes/issues.ts`)

`router.use(authenticate)` guards every issue route; each route model takes
the authenticated caller (`none`: authentication failed, the middleware
answers 401 and the handler never runs). -/

/-- `GET /issues/:id` (`routes/issues.ts` lines 228-277): `findUnique` by id,
404 when absent, otherwise 200 with the issue.  The handler consults neither
the caller's role nor the issue's creator. -/
def getIssueRouteTS (issues : List Issue) (reqUser : Option UserTS)
    (id : String) : Nat × Option Issue :=
  match reqUser with
  | none => (401, none)
  | some _ =>
    match issues.find? (fun i => i.id == id) with
    | none => (404, none)
    | some issue => (200, some issue)

/-- `GET /issues/:id` of the JavaScript variant (`src/unnamed/part_004` lines
152-184): 404 when absent; 403 `ForbiddenError` when the caller has role
`CUSTOMER` and the issue's `customerId` is not the caller; otherwise 200. -/
def getIssueRouteJS (issues : List IssueJS) (reqUser : Option UserJS)
    (id : String) : Nat × Option IssueJS :=
  match reqUser with
  | none => (401, none)
  | some u =>
    match issues.find? (fun i => i.id == id) with
    | none => (404, none)
    | some issue =>
      if u.role == "CUSTOMER" && issue.customerId != u.id then
        (403, none)
      else
        (200, some issue)

/-- The Joi-validated body of `PATCH /issues/:id/triage`
(`schemas.triageIssue`): `severity` required, `status` and `assignedTo`
optional. -/
structure TriageBody where
  severity : Severity
  status : Option Status
  assignedTo : Option String
  deriving DecidableEq, Repr

/-- The `updateData` object built by the triage handler (`routes/issues.ts`
lines 310-327) applied to the existing issue: always sets `severity` and
`updatedAt`; when `status` is supplied it is set, and `resolvedAt := now`
exactly when it is `RESOLVED` or `CLOSED`; when `assignedTo` is supplied it
is set. -/
def applyTriage (i : Issue) (severity : Severity) (status : Option Status)
    (assignedTo : Option String) (now : Nat) : Issue :=
  let i1 := { i with severity := severity, updatedAt := now }
  let i2 :=
    match status with
    | none => i1
    | some st =>
      if st = Status.RESOLVED ∨ st = Status.CLOSED then
        { i1 with status := st, resolvedAt := some now }
      else
        { i1 with status := st }
  match assignedTo with
  | none => i2
  | some a => { i2 with assignedToId := some a }

/-- `PATCH /issues/:id/triage` (`routes/issues.ts` lines 283-371).  The route
chain is `authenticate`, `validateUuidParam`, `validateTriageIssue`, handler —
no role gate.  Handler: 404 when the issue is absent; when `assignedTo` is
supplied and no user has that id, 400 `Invalid reference` with no update;
otherwise `prisma.issue.update` with the prepared data and 200.  The result
is the issues table after the call, the HTTP status, and the response
issue. -/
def triageRouteTS (users : List UserTS) (issues : List Issue)
    (reqUser : Option UserTS) (id : String) (body : TriageBody) (now : Nat) :
    List Issue × Nat × Option Issue :=
  match reqUser with
  | none => (issues, 401, none)
  | some _ =>
    match issues.find? (fun i => i.id == id) with
    | none => (issues, 404, none)
    | some existingIssue =>
      match body.assignedTo with
      | some a =>
        if (users.find? (fun u => u.id == a)).isNone then
          (issues, 400, none)
        else
          let updated := applyTriage existingIssue body.severity body.status
            body.assignedTo now
          (issues.map (fun i => if i.id == id then updated else i), 200,
            some updated)
      | none =>
        let updated := applyTriage existingIssue body.severity body.status
          body.assignedTo now
        (issues.map (fun i => if i.id == id then updated else i), 200,
          some updated)

/-! ## Request validation (`middleware/validation.ts`)

`validate(schema, target)` runs Joi with `stripUnknown: true` and
`convert: true` and answers 400 on any schema violation; otherwise the
sanitised value replaces the request data. -/

/-- Joi `limit` rule of `schemas.issueFilters`:
`Joi.number().integer().min(1).max(100).default(20)`.  An absent limit
defaults to 20; an integer inside `[1, 100]` passes through; anything else is
a Joi violation and `validate` answers 400 (`none` here).  Joi `min`/`max`
reject — they do not clamp. -/
def issueFiltersLimit (raw : Option Int) : Option Nat :=
  match raw with
  | none => some 20
  | some n => if 1 ≤ n ∧ n ≤ 100 then some n.toNat else none

/-- A `POST /issues` request body as the client sent it.  The fields
`severity` and `status` are not part of `schemas.createIssue`; with
`stripUnknown: true` Joi removes them from the validated value. -/
structure CreateIssueRawBody where
  trackingNumber : String
  type : String
  title : String
  description : String
  customerEmail : String
  customerPhone : Option String
  severity : Option String
  status : Option String
  deriving DecidableEq, Repr

/-- The validated `POST /issues` body (`CreateIssueRequest` after
`validateCreateIssue`): exactly the keys of `schemas.createIssue`, with
`type` checked against the `IssueType` enum. -/
structure CreateIssueRequest where
  trackingNumber : String
  type : IssueType
  title : String
  description : String
  customerEmail : String
  customerPhone : Option String
  deriving DecidableEq, Repr

/-- `Object.values(IssueType)` as strings, with the parse used by the `valid`
rule. -/
def parseIssueType (s : String) : Option IssueType :=
  if s == "DELIVERY_DELAY" then some .DELIVERY_DELAY
  else if s == "PACKAGE_DAMAGED" then some .PACKAGE_DAMAGED
  else if s == "PACKAGE_LOST" then some .PACKAGE_LOST
  else if s == "WRONG_ADDRESS" then some .WRONG_ADDRESS
  else if s == "DELIVERY_ATTEMPTED" then some .DELIVERY_ATTEMPTED
  else if s == "CUSTOMER_UNAVAILABLE" then some .CUSTOMER_UNAVAILABLE
  else if s == "WEATHER_DELAY" then some .WEATHER_DELAY
  else if s == "VEHICLE_BREAKDOWN" then some .VEHICLE_BREAKDOWN
  else if s == "OTHER" then some .OTHER
  else none

/-- Split a character list at every occurrence of a separator. -/
def splitAtChar : List Char → Char → List (List Char)
  | [], _ => [[]]
  | c :: cs, sep =>
    let rest := splitAtChar cs sep
    if c = sep then [] :: rest
    else
      match rest with
      | h :: t => (c :: h) :: t
      | [] => [[c]]

/-- Joi's `string().email()` check, embedded as the pass/fail gate the routes
depend on (the claims do not depend on the exact address grammar): a
non-empty local part and a non-empty domain around one `@`. -/
def joiEmailOk (s : String) : Bool :=
  match splitAtChar s.data '@' with
  | [local_, domain] => !local_.isEmpty && !domain.isEmpty
  | _ => false

/-- Joi phone rule `pattern(/^\+?[\d\s\-\(\)]+$/)` when `customerPhone` is
present. -/
def joiPhoneOk (s : String) : Bool :=
  let rest :=
    match s.data with
    | c :: cs => if c = '+' then cs else c :: cs
    | [] => []
  !rest.isEmpty &&
    rest.all (fun c =>
      c.isDigit || c = ' ' || c = '-' || c = '(' || c = ')')

/-- `validateCreateIssue` (`schemas.createIssue` with `stripUnknown: true`):
checks every declared key and drops the undeclared `severity`/`status`;
`none` models the 400 validation response. -/
def validateCreateIssue (b : CreateIssueRawBody) : Option CreateIssueRequest :=
  if 3 ≤ b.trackingNumber.length ∧ b.trackingNumber.length ≤ 50 then
    match parseIssueType b.type with
    | none => none
    | some ty =>
      if 5 ≤ b.title.length ∧ b.title.length ≤ 200 then
        if 10 ≤ b.description.length ∧ b.description.length ≤ 2000 then
          if joiEmailOk b.customerEmail then
            match b.customerPhone with
            | some p =>
              if joiPhoneOk p then
                some { trackingNumber := b.trackingNumber, type := ty,
                       title := b.title, description := b.description,
                       customerEmail := b.customerEmail,
                       customerPhone := some p }
              else none
            | none =>
              some { trackingNumber := b.trackingNumber, type := ty,
                     title := b.title, description := b.description,
                     customerEmail := b.customerEmail, customerPhone := none }
          else none
        else none
      else none
  else none

/-- `POST /issues` handler (`routes/issues.ts` lines 30-94) on a validated
body: creates the issue with `severity: Severity.MEDIUM`, `status:
Status.OPEN`, the lower-cased customer email, the caller as `createdById`,
and the Prisma defaults `assignedToId = null`, `resolvedAt = null`,
`createdAt = updatedAt = now`.  `newId` models the generated primary key. -/
def createIssueHandler (req : CreateIssueRequest) (userId : String)
    (newId : String) (now : Nat) : Issue :=
  { id := newId
    trackingNumber := req.trackingNumber
    type := req.type
    severity := Severity.MEDIUM
    status := Status.OPEN
    title := req.title
    description := req.description
    customerEmail := req.customerEmail.toLower
    customerPhone := req.customerPhone
    assignedToId := none
    createdById := userId
    createdAt := now
    updatedAt := now
    resolvedAt := none }

/-! ## Cursor decoding (`routes/issues.ts` lines 136-148)

`JSON.parse(Buffer.from(cursor, 'base64').toString())` inside `try`; any
exception becomes `ApiError('Invalid cursor format', 400)`.  `Buffer.from`
with `'base64'` is forgiving: it accepts the base64 and base64url alphabets,
ignores every other character, stops at the first `=`, and drops leftover
bits that do not fill a byte.  `JSON.parse` then parses the decoded text.
Bytes are `Nat` values below 256; bytes at or above 128 only ever occur
inside JSON strings here (after UTF-8 replacement both sides treat them as
opaque string content). -/

/-- Value of one character of the (forgiving) base64 alphabet;
`none` for characters `Buffer.from(−, 'base64')` ignores. -/
def base64Val (c : Char) : Option Nat :=
  if 'A' ≤ c ∧ c ≤ 'Z' then some (c.toNat - 65)
  else if 'a' ≤ c ∧ c ≤ 'z' then some (c.toNat - 71)
  else if '0' ≤ c ∧ c ≤ '9' then some (c.toNat + 4)
  else if c = '+' ∨ c = '-' then some 62
  else if c = '/' ∨ c = '_' then some 63
  else none

/-- The sextet stream of a base64 text: invalid characters are skipped and
the first `=` ends the stream. -/
def base64Sextets : List Char → List Nat
  | [] => []
  | c :: cs =>
    if c = '=' then []
    else
      match base64Val c with
      | some v => v :: base64Sextets cs
      | none => base64Sextets cs

/-- Bytes of a sextet stream: groups of four sextets yield three bytes, a
trailing group of three yields two, of two yields one, and a lone sextet is
dropped. -/
def sextetsToBytes : List Nat → List Nat
  | a :: b :: c :: d :: rest =>
    (a * 4 + b / 16) :: ((b % 16) * 16 + c / 4) :: ((c % 4) * 64 + d) ::
      sextetsToBytes rest
  | [a, b, c] => [a * 4 + b / 16, (b % 16) * 16 + c / 4]
  | [a, b] => [a * 4 + b / 16]
  | _ => []

/-- `Buffer.from(s, 'base64')` as a byte list. -/
def base64DecodeNode (s : String) : List Nat :=
  sextetsToBytes (base64Sextets s.data)

/-- A parsed JSON value.  Number lexemes carry no payload: the route only
ever inspects whether `decodedCursor.id` is a string. -/
inductive Json
  | null
  | bool (b : Bool)
  | num
  | str (s : String)
  | arr (elems : List Json)
  | obj (fields : List (String × Json))
  deriving Repr, Inhabited

/-- JSON whitespace bytes (space, tab, line feed, carriage return). -/
def isWsB (b : Nat) : Bool :=
  b == 32 || b == 9 || b == 10 || b == 13

/-- Drop leading JSON whitespace. -/
def skipWs : List Nat → List Nat
  | [] => []
  | b :: bs => if isWsB b then skipWs bs else b :: bs

/-- Value of a hexadecimal digit byte. -/
def parseHexDigit (b : Nat) : Option Nat :=
  if 48 ≤ b ∧ b ≤ 57 then some (b - 48)
  else if 65 ≤ b ∧ b ≤ 70 then some (b - 55)
  else if 97 ≤ b ∧ b ≤ 102 then some (b - 87)
  else none

/-- Body of a JSON string after the opening quote: plain bytes, the JSON
escapes, and `\uXXXX`; raw control bytes are rejected, as `JSON.parse`
does. -/
def parseJString (fuel : Nat) (bs : List Nat) (acc : List Char) :
    Option (String × List Nat) :=
  match fuel, bs with
  | 0, _ => none
  | _, [] => none
  | fuel + 1, b :: rest =>
    if b == 34 then some (String.mk acc.reverse, rest)
    else if b == 92 then
      match rest with
      | [] => none
      | e :: rest2 =>
        if e == 34 ∨ e == 92 ∨ e == 47 then
          parseJString fuel rest2 (Char.ofNat e :: acc)
        else if e == 98 then parseJString fuel rest2 (Char.ofNat 8 :: acc)
        else if e == 102 then parseJString fuel rest2 (Char.ofNat 12 :: acc)
        else if e == 110 then parseJString fuel rest2 (Char.ofNat 10 :: acc)
        else if e == 114 then parseJString fuel rest2 (Char.ofNat 13 :: acc)
        else if e == 116 then parseJString fuel rest2 (Char.ofNat 9 :: acc)
        else if e == 117 then
          match rest2 with
          | h1 :: h2 :: h3 :: h4 :: rest3 =>
            match parseHexDigit h1, parseHexDigit h2, parseHexDigit h3,
                parseHexDigit h4 with
            | some x1, some x2, some x3, some x4 =>
              parseJString fuel rest3
                (Char.ofNat (((x1 * 16 + x2) * 16 + x3) * 16 + x4) :: acc)
            | _, _, _, _ => none
          | _ => none
        else none
    else if b < 32 then none
    else parseJString fuel rest (Char.ofNat b :: acc)

/-- Split the leading run of decimal-digit bytes. -/
def spanDigits : List Nat → List Nat × List Nat
  | [] => ([], [])
  | b :: bs =>
    if 48 ≤ b ∧ b ≤ 57 then
      let (ds, rest) := spanDigits bs
      (b :: ds, rest)
    else ([], b :: bs)

/-- A JSON number per the grammar
`-?(0|[1-9][0-9]*)(\.[0-9]+)?([eE][+-]?[0-9]+)?`; returns the bytes after
the number. -/
def parseJNumber (bs : List Nat) : Option (List Nat) :=
  let bs1 := match bs with
    | 45 :: rest => rest
    | _ => bs
  match bs1 with
  | [] => none
  | b :: rest =>
    if ¬(48 ≤ b ∧ b ≤ 57) then none
    else
      let afterInt := if b == 48 then rest else (spanDigits rest).2
      let afterFrac :=
        match afterInt with
        | 46 :: r =>
          match spanDigits r with
          | ([], _) => none
          | (_, r2) => some r2
        | _ => some afterInt
      match afterFrac with
      | none => none
      | some af =>
        match af with
        | e :: r =>
          if e == 101 ∨ e == 69 then
            let r1 := match r with
              | 43 :: r2 => r2
              | 45 :: r2 => r2
              | _ => r
            match spanDigits r1 with
            | ([], _) => none
            | (_, r2) => some r2
          else some af
        | [] => some af

mutual

/-- One JSON value (after leading whitespace), returning the remaining
bytes. -/
def parseValue : Nat → List Nat → Option (Json × List Nat)
  | 0, _ => none
  | fuel + 1, bs =>
    match skipWs bs with
    | [] => none
    | b :: rest =>
      if b == 110 then
        match rest with
        | 117 :: 108 :: 108 :: r => some (.null, r)
        | _ => none
      else if b == 116 then
        match rest with
        | 114 :: 117 :: 101 :: r => some (.bool true, r)
        | _ => none
      else if b == 102 then
        match rest with
        | 97 :: 108 :: 115 :: 101 :: r => some (.bool false, r)
        | _ => none
      else if b == 34 then
        match parseJString (rest.length + 1) rest [] with
        | some (s, r) => some (.str s, r)
        | none => none
      else if b == 45 ∨ (48 ≤ b ∧ b ≤ 57) then
        match parseJNumber (b :: rest) with
        | some r => some (.num, r)
        | none => none
      else if b == 91 then
        match skipWs rest with
        | 93 :: r => some (.arr [], r)
        | r => parseElems fuel r []
      else if b == 123 then
        match skipWs rest with
        | 125 :: r => some (.obj [], r)
        | r => parseMembers fuel r []
      else none

/-- Array elements after the opening bracket (first element pending). -/
def parseElems : Nat → List Nat → List Json → Option (Json × List Nat)
  | 0, _, _ => none
  | fuel + 1, bs, acc =>
    match parseValue fuel bs with
    | none => none
    | some (v, rest) =>
      match skipWs rest with
      | 44 :: r => parseElems fuel r (v :: acc)
      | 93 :: r => some (.arr (v :: acc).reverse, r)
      | _ => none

/-- Object members after the opening brace (first member pending). -/
def parseMembers : Nat → List Nat → List (String × Json) →
    Option (Json × List Nat)
  | 0, _, _ => none
  | fuel + 1, bs, acc =>
    match skipWs bs with
    | 34 :: r =>
      match parseJString (r.length + 1) r [] with
      | none => none
      | some (k, rest) =>
        match skipWs rest with
        | 58 :: r2 =>
          match parseValue fuel r2 with
          | none => none
          | some (v, rest2) =>
            match skipWs rest2 with
            | 44 :: r3 => parseMembers fuel r3 ((k, v) :: acc)
            | 125 :: r3 => some (.obj ((k, v) :: acc).reverse, r3)
            | _ => none
        | _ => none
    | _ => none

end

/-- `JSON.parse` over the decoded bytes: one value, nothing but whitespace
after it.  The fuel `2 * length + 4` dominates the recursion depth (every
two parser steps consume at least one byte). -/
def parseJson (bs : List Nat) : Option Json :=
  match parseValue (2 * bs.length + 4) bs with
  | none => none
  | some (v, rest) => if (skipWs rest).isEmpty then some v else none

/-- JavaScript property lookup on a parsed object: with duplicate keys,
`JSON.parse` keeps the last occurrence. -/
def jsObjLookup (fields : List (String × Json)) (k : String) : Option Json :=
  (fields.reverse.find? (fun kv => kv.1 == k)).map (fun kv => kv.2)

/-- Fate of `decodedCursor.id` in the route:
* `malformed`: `JSON.parse` threw, or the value is `null` (so
  `decodedCursor.id` throws) — the `catch` answers 400;
* `noStringId`: a JSON value whose `.id` is not a string — `undefined` or a
  non-string reaches `prisma.issue.findMany` as the cursor id and Prisma
  rejects the query (a 500-class failure outside the `try`);
* `ok id`: a JSON object with a string `id` property. -/
inductive CursorDecode
  | malformed
  | noStringId
  | ok (id : String)
  deriving DecidableEq, Repr

/-- The cursor pipeline of `routes/issues.ts` lines 138-148. -/
def decodeCursor (cursor : String) : CursorDecode :=
  match parseJson (base64DecodeNode cursor) with
  | none => .malformed
  | some .null => .malformed
  | some (.obj fields) =>
    match jsObjLookup fields "id" with
    | some (.str s) => .ok s
    | _ => .noStringId
  | some _ => .noStringId

/-! ## Issue listing (`routes/issues.ts` lines 100-222) -/

/-- The validated query filters of `GET /issues` (`schemas.issueFilters`),
already typed by Joi validation. -/
structure IssueFilters where
  status : Option Status
  severity : Option Severity
  type : Option IssueType
  q : Option String
  deriving DecidableEq, Repr

/-- Contiguous-sublist test on character lists. -/
def charsContain (hay needle : List Char) : Bool :=
  match hay with
  | [] => needle.isEmpty
  | _ :: t => needle.isPrefixOf hay || charsContain t needle

/-- Prisma `contains` with `mode: 'insensitive'`. -/
def containsInsensitive (hay q : String) : Bool :=
  charsContain hay.toLower.data q.toLower.data

/-- The Prisma `where` object of the listing: exact matches on
status/severity/type and the `OR` of case-insensitive substring matches for
`q` across title, description and tracking number. -/
def issueMatches (f : IssueFilters) (i : Issue) : Bool :=
  (match f.status with
    | none => true
    | some s => i.status == s) &&
  (match f.severity with
    | none => true
    | some s => i.severity == s) &&
  (match f.type with
    | none => true
    | some t => i.type == t) &&
  (match f.q with
    | none => true
    | some q =>
      containsInsensitive i.title q || containsInsensitive i.description q ||
        containsInsensitive i.trackingNumber q)

/-- The sort key of `orderBy: [{createdAt: 'desc'}, {id: 'desc'}]`,
lexicographic on `(createdAt, id)`. -/
def issueKey (i : Issue) : Lex (Nat × String) :=
  toLex (i.createdAt, i.id)

/-- `a` comes no later than `b` in the descending `(createdAt, id)` order. -/
def issueBefore (a b : Issue) : Prop :=
  issueKey b ≤ issueKey a

instance : DecidableRel issueBefore :=
  fun a b => inferInstanceAs (Decidable (issueKey b ≤ issueKey a))

instance : IsTotal Issue issueBefore :=
  ⟨fun a b => (le_total (issueKey b) (issueKey a)).imp id id⟩

instance : IsTrans Issue issueBefore :=
  ⟨fun _ _ _ hab hbc => le_trans hbc hab⟩

/-- The rows in the order the database returns them. -/
def sortIssues (l : List Issue) : List Issue :=
  List.insertionSort issueBefore l

/-- Prisma `cursor: { id }` with `skip: 1` on the ordered result: everything
strictly after the row carrying the cursor id; an unknown id yields no
rows. -/
def cursorSlice : List Issue → String → List Issue
  | [], _ => []
  | r :: rest, cid => if r.id == cid then rest else cursorSlice rest cid

/-- The page assembled by the handler from the ordered rows after the
cursor: `take: limit + 1`, `hasMore` when more than `limit` arrived,
`slice(0, -1)` then, and `nextCursor` from the last retained row (the route
base64-encodes the JSON of this `(createdAt, id)` pair). -/
structure ListPage where
  data : List Issue
  hasMore : Bool
  nextCursor : Option (Nat × String)
  deriving DecidableEq, Repr

/-- Page construction of `routes/issues.ts` lines 151-190. -/
def buildPage (rows : List Issue) (limit : Nat) : ListPage :=
  let fetched := rows.take (limit + 1)
  let hasMore := decide (limit < fetched.length)
  let data := if hasMore then fetched.dropLast else fetched
  { data := data
    hasMore := hasMore
    nextCursor :=
      if hasMore && !data.isEmpty then
        data.getLast?.map (fun l => (l.createdAt, l.id))
      else none }

/-- Outcome of `GET /issues`. -/
inductive ListResult
  | ok (page : ListPage)
  | badRequest (msg : String)
  | serverError
  deriving DecidableEq, Repr

/-- `GET /issues` (`routes/issues.ts` lines 100-222) on a validated query:
filter, order descending by `(createdAt, id)`, apply the cursor, page.  A
cursor that does not decode to JSON (or decodes to `null`) answers 400; a
JSON cursor without a string `id` reaches Prisma and fails server-side. -/
def listIssuesRouteTS (issues : List Issue) (f : IssueFilters)
    (cursor : Option String) (limit : Nat) : ListResult :=
  let sorted := sortIssues (issues.filter (issueMatches f))
  match cursor with
  | none => .ok (buildPage sorted limit)
  | some c =>
    match decodeCursor c with
    | .malformed => .badRequest "Invalid cursor format"
    | .noStringId => .serverError
    | .ok cid => .ok (buildPage (cursorSlice sorted cid) limit)

/-- The data rows of a listing outcome (empty for error outcomes). -/
def listData : ListResult → List Issue
  | .ok page => page.data
  | .badRequest _ => []
  | .serverError => []

/-! ## Concrete rows and requests used to evaluate the theorems -/

/-- A stored, unrevoked refresh token expiring at instant 100. -/
def exRow : RefreshTokenRow :=
  { id := "rt1", userId := "u1", token := "tok", expiresAt := 100,
    revoked := false, createdAt := 0 }

/-- The same row after revocation. -/
def exRowRevoked : RefreshTokenRow := { exRow with revoked := true }

/-- A refresh-token payload whose `exp` claim (in seconds) is far from
elapsed at the instants considered. -/
def exJwt : Jwt := { jti := "jti1", expSec := 10 }

/-- A stored TypeScript-variant refresh token, unexpired at instant 50. -/
def exStored : StoredRefreshToken :=
  { id := "st1", token := exJwt, userId := "u1", expiresAt := 100 }

/-- A refresh-token payload whose `exp` claim has elapsed at instant 2000. -/
def exJwtExpired : Jwt := { jti := "jti2", expSec := 1 }

/-- A stored row that is expired at instant 2000 and whose token also fails
JWT verification then. -/
def exStoredExpired : StoredRefreshToken :=
  { id := "st2", token := exJwtExpired, userId := "u2", expiresAt := 1500 }

/-- A payload passing JWT verification at instant 50. -/
def exJwt3 : Jwt := { jti := "jti3", expSec := 10 }

/-- A stored row already expired (database-wise) at instant 50. -/
def exStored3 : StoredRefreshToken :=
  { id := "st3", token := exJwt3, userId := "u3", expiresAt := 40 }

/-- An issue created by user `u1`. -/
def exIssue1 : Issue :=
  { id := "b", trackingNumber := "TRK1", type := .OTHER, severity := .LOW,
    status := .OPEN, title := "t1", description := "d1",
    customerEmail := "a@b.c", customerPhone := none, assignedToId := none,
    createdById := "u1", createdAt := 10, updatedAt := 10, resolvedAt := none }

/-- A later issue by the same user. -/
def exIssue2 : Issue := { exIssue1 with id := "a", createdAt := 20 }

/-- An earlier issue by the same user. -/
def exIssue3 : Issue := { exIssue1 with id := "c", createdAt := 5 }

/-- An authenticated TypeScript-variant caller with role `CUSTOMER`. -/
def exCustomerTS : UserTS :=
  { id := "cust1", email := "c@x.y", password := "pw", name := "Cust",
    company := "Co", role := "CUSTOMER", createdAt := 0, updatedAt := 0 }

/-- An authenticated TypeScript-variant caller with role `SUPPORT`. -/
def exSupportTS : UserTS :=
  { exCustomerTS with id := "sup1", email := "s@x.y", role := "SUPPORT" }

/-- An authenticated JavaScript-variant caller with role `CUSTOMER`. -/
def exCustomerJS : UserJS :=
  { id := "cust2", email := "c2@x.y", passwordHash := "h", name := "C2",
    role := "CUSTOMER" }

/-- A JavaScript-variant issue owned by user `u9`. -/
def exIssueJS : IssueJS :=
  { id := "j1", orderId := "o1", type := "LATE", severity := "LOW",
    status := "OPEN", description := "d", customerId := "u9",
    createdAt := 5, updatedAt := 5 }

/-- A triage body carrying only the mandatory severity. -/
def exTriageBody : TriageBody :=
  { severity := .HIGH, status := none, assignedTo := none }

/-- A triage body moving the issue into `RESOLVED`. -/
def exTriageResolved : TriageBody :=
  { severity := .HIGH, status := some .RESOLVED, assignedTo := none }

/-- A triage body naming a non-existent assignee. -/
def exTriageGhost : TriageBody :=
  { severity := .HIGH, status := some .RESOLVED, assignedTo := some "ghost" }

/-- A creation body that passes `schemas.createIssue` and also smuggles
`severity` and `status` keys. -/
def exCreateBody : CreateIssueRawBody :=
  { trackingNumber := "TRK12345", type := "OTHER", title := "title",
    description := "description1", customerEmail := "a@b.c",
    customerPhone := none, severity := some "CRITICAL",
    status := some "CLOSED" }

/-- The sanitised value Joi hands the handler for `exCreateBody`. -/
def exCreateReq : CreateIssueRequest :=
  { trackingNumber := "TRK12345", type := .OTHER, title := "title",
    description := "description1", customerEmail := "a@b.c",
    customerPhone := none }

/-- A listing query with no filters. -/
def exFilters : IssueFilters :=
  { status := none, severity := none, type := none, q := none }

/-- Decidability of `opStoresToken`, by the cases of the operation. -/
instance (op : SessionOp) (t : String) : Decidable (opStoresToken op t) :=
  match op with
  | .store _ t' _ _ => inferInstanceAs (Decidable (t' = t))
  | .revoke _ => inferInstanceAs (Decidable False)
  | .revokeAll _ => inferInstanceAs (Decidable False)
  | .cleanup _ => inferInstanceAs (Decidable False)

/-- Decidability of `allRevoked`, as a bounded quantifier over the rows. -/
instance (db : List RefreshTokenRow) (t : String) : Decidable (allRevoked db t) :=
  inferInstanceAs (Decidable (∀ r ∈ db, r.token = t → r.revoked = true))

/-! # Theorems -/

/-- The row returned by `findUniqueToken` carries the requested token. -/
theorem findUniqueToken_token {db : List RefreshTokenRow} {t : String}
    {r : RefreshTokenRow} (h : findUniqueToken db t = some r) : r.token = t := by
  have hp := List.find?_some h
  simpa using hp

/-- The row returned by `findUniqueToken` is in the table. -/
theorem findUniqueToken_mem {db : List RefreshTokenRow} {t : String}
    {r : RefreshTokenRow} (h : findUniqueToken db t = some r) : r ∈ db :=
  List.mem_of_find?_eq_some h

/-- When every row for a token is revoked, validation fails. -/
theorem validate_none_of_allRevoked (db : List RefreshTokenRow) (t : String)
    (now : Nat) (h : allRevoked db t) : validateRefreshToken db t now = none := by
  unfold validateRefreshToken
  cases hf : findUniqueToken db t with
  | none => rfl
  | some r =>
    have hrev : r.revoked = true :=
      h r (findUniqueToken_mem hf) (findUniqueToken_token hf)
    simp [hrev]

/-- No session-store operation except a `store` of the very token can make a
row for it unrevoked. -/
theorem allRevoked_applySessionOp (db : List RefreshTokenRow) (op : SessionOp)
    (t : String) (h : allRevoked db t) (hop : ¬ opStoresToken op t) :
    allRevoked (applySessionOp db op) t := by
  cases op with
  | store u t' n i =>
    intro r hr htok
    unfold applySessionOp storeRefreshToken at hr
    rcases List.mem_append.mp hr with hr | hr
    · exact h r hr htok
    · simp only [List.mem_singleton] at hr
      subst hr
      exact absurd htok hop
  | revoke t' =>
    intro r hr htok
    unfold applySessionOp revokeRefreshToken at hr
    rcases List.mem_map.mp hr with ⟨s, hs, rfl⟩
    by_cases hst : s.token == t'
    · simp [hst]
    · simp only [hst, if_neg, Bool.false_eq_true, not_false_eq_true,
        if_neg] at htok ⊢
      exact h s hs htok
  | revokeAll u =>
    intro r hr htok
    unfold applySessionOp revokeAllUserTokens at hr
    rcases List.mem_map.mp hr with ⟨s, hs, rfl⟩
    by_cases hsu : s.userId == u
    · simp [hsu]
    · simp only [hsu, Bool.false_eq_true, not_false_eq_true, if_neg]
        at htok ⊢
      exact h s hs htok
  | cleanup n =>
    intro r hr htok
    unfold applySessionOp cleanupExpiredTokens at hr
    exact h r (List.mem_of_mem_filter hr) htok

/-- Revocation is permanent across a sequence of operations that never
re-inserts the token. -/
theorem allRevoked_applySessionOps (ops : List SessionOp) :
    ∀ db t, allRevoked db t → (∀ op ∈ ops, ¬ opStoresToken op t) →
      allRevoked (applySessionOps db ops) t := by
  induction ops with
  | nil => intro db t h _; exact h
  | cons op rest ih =>
    intro db t h hops
    have h1 : allRevoked (applySessionOp db op) t :=
      allRevoked_applySessionOp db op t h (hops op (List.mem_cons_self op rest))
    have h2 : ∀ o ∈ rest, ¬ opStoresToken o t :=
      fun o ho => hops o (List.mem_cons_of_mem op ho)
    exact ih (applySessionOp db op) t h1 h2

/-- C1 (counterexample): the claim demands that validation succeed only when
the expiration timestamp is strictly in the future; but the session store's
`validate` accepts a stored, unrevoked token whose `expiresAt` equals the
current instant (`lib/auth.js` only rejects `expiresAt < now`). -/
theorem C1_counterexample :
    validateRefreshToken [exRow] "tok" 100 = some exRow ∧
      ¬ 100 < exRow.expiresAt := by
  decide

/-- C1 (amended): validation of a refresh token succeeds and yields the
session record iff the record exists, is not revoked, and its expiration
timestamp is not earlier than the current instant (`expiresAt ≥ now`; a
token expiring exactly now still validates); a not-found, revoked, or
expired token makes `POST /auth/refresh` answer 401; revoking a token makes
every row for it revoked, and across any further operations that do not
re-insert that token string the token can never validate again. -/
theorem C1_validate_iff :
    (∀ db t now, (validateRefreshToken db t now).isSome = true ↔
        ∃ r, findUniqueToken db t = some r ∧ r.revoked = false ∧
          now ≤ r.expiresAt)
    ∧ (∀ db t now, validateRefreshToken db t now = none →
        refreshRouteJS db t now = (db, 401))
    ∧ (∀ db t, allRevoked (revokeRefreshToken db t) t)
    ∧ (∀ db ops t now, allRevoked db t →
        (∀ op ∈ ops, ¬ opStoresToken op t) →
        validateRefreshToken (applySessionOps db ops) t now = none) := by
  refine ⟨?_, ?_, ?_, ?_⟩
  · intro db t now
    unfold validateRefreshToken
    cases hf : findUniqueToken db t with
    | none => simp
    | some r =>
      by_cases hrev : r.revoked
      · simp [hrev]
      · by_cases hexp : r.expiresAt < now
        · simp [hrev, hexp, Nat.not_le.mpr hexp]
        · simp [hrev, hexp, Nat.not_lt.mp hexp]
  · intro db t now h
    unfold refreshRouteJS
    rw [h]
  · intro db t r hr htok
    unfold revokeRefreshToken at hr
    rcases List.mem_map.mp hr with ⟨s, _, rfl⟩
    by_cases hst : s.token == t
    · simp [hst]
    · simp only [hst, Bool.false_eq_true, not_false_eq_true, if_neg] at htok
      exact absurd (by simpa using htok) (by simpa using hst)
  · intro db ops t now h hops
    exact validate_none_of_allRevoked _ t now
      (allRevoked_applySessionOps ops db t h hops)

/-- C1 (witness): the theorem evaluated on a refused empty store and on a
revoked row surviving a cleanup. -/
theorem C1_validate_iff_witness :
    refreshRouteJS [] "x" 0 = ([], 401) ∧
      validateRefreshToken
        (applySessionOps [exRowRevoked] [SessionOp.cleanup 50]) "tok" 60
        = none :=
  ⟨C1_validate_iff.2.1 [] "x" 0 (by decide),
   C1_validate_iff.2.2.2 [exRowRevoked] [SessionOp.cleanup 50] "tok" 60
     (by decide) (by decide)⟩

/-- C8: a successful `POST /auth/refresh` issues only a new access token:
the refresh-token table is exactly what it was (no rotation, no new record,
the presented row untouched), and the very same refresh token immediately
validates again, yielding the identical outcome; the JavaScript variant's
refresh handler never writes the table at all. -/
theorem C8_refresh_no_rotation :
    (∀ db tok now, (refreshRouteTS db tok now).2.1 = 200 →
        (refreshRouteTS db tok now).1 = db ∧
          refreshRouteTS ((refreshRouteTS db tok now).1) tok now
            = refreshRouteTS db tok now)
    ∧ (∀ db t now, (refreshRouteJS db t now).1 = db) := by
  constructor
  · intro db tok now h
    unfold refreshRouteTS at h ⊢
    by_cases hv : verifyRefreshTokenOk tok now
    · cases hf : db.find? (fun r => r.token == tok) with
      | none => simp [hv, hf] at h
      | some r =>
        by_cases hexp : r.expiresAt < now
        · simp [hv, hf, hexp] at h
        · simp [hv, hf, hexp]
    · simp [hv] at h
  · intro db t now
    unfold refreshRouteJS
    cases validateRefreshToken db t now <;> rfl

/-- C8 (witness): the theorem evaluated on a store holding one valid
token. -/
theorem C8_refresh_no_rotation_witness :
    (refreshRouteTS [exStored] exJwt 50).1 = [exStored] ∧
      refreshRouteTS ((refreshRouteTS [exStored] exJwt 50).1) exJwt 50
        = refreshRouteTS [exStored] exJwt 50 :=
  C8_refresh_no_rotation.1 [exStored] exJwt 50 (by decide)

/-- C10 (counterexample): the claim demands that every 401-failing refresh
with a stored-but-expired token delete the row; but a stored, expired token
whose JWT `exp` claim has also elapsed fails `verifyRefreshToken` first, and
the 401 leaves the table unchanged (for tokens minted by this system the
JWT expires no later than the row, so this is the path an expired stored
token actually takes). -/
theorem C10_counterexample :
    refreshRouteTS [exStoredExpired] exJwtExpired 2000
        = ([exStoredExpired], 401, none)
      ∧ exStoredExpired.expiresAt < 2000 := by
  decide

/-- C10 (amended): on a 401-failing `POST /auth/refresh`: a token failing
JWT verification leaves the table unchanged (even when stored and expired);
a JWT-verified token that is not stored leaves the table unchanged; and a
JWT-verified token that is stored but expired has its row deleted before the
error is returned. -/
theorem C10_refresh_failure_effects :
    (∀ db tok now, verifyRefreshTokenOk tok now = false →
        refreshRouteTS db tok now = (db, 401, none))
    ∧ (∀ db tok now, verifyRefreshTokenOk tok now = true →
        db.find? (fun r => r.token == tok) = none →
        refreshRouteTS db tok now = (db, 401, none))
    ∧ (∀ db tok now r, verifyRefreshTokenOk tok now = true →
        db.find? (fun x => x.token == tok) = some r →
        r.expiresAt < now →
        refreshRouteTS db tok now
          = (db.filter (fun x => x.id != r.id), 401, none)) := by
  refine ⟨?_, ?_, ?_⟩
  · intro db tok now hv
    unfold refreshRouteTS
    simp [hv]
  · intro db tok now hv hf
    unfold refreshRouteTS
    simp [hv, hf]
  · intro db tok now r hv hf hexp
    unfold refreshRouteTS
    simp [hv, hf, hexp]

/-- C10 (witness): the theorem evaluated on a JWT-verified token whose
stored row is expired — the 401 deletes the row. -/
theorem C10_refresh_failure_effects_witness :
    refreshRouteTS [exStored3] exJwt3 50
      = ([exStored3].filter (fun x => x.id != exStored3.id), 401, none) :=
  C10_refresh_failure_effects.2.2 [exStored3] exJwt3 50 exStored3
    (by decide) (by decide) (by decide)

/-- C3 (counterexample): the claim demands that an authenticated
customer-role caller invoking `PATCH /issues/:id/triage` always receive 403;
but the route applies no role gate (`authorize` is never attached to it), so
the customer's triage succeeds with 200. -/
theorem C3_counterexample :
    (triageRouteTS [] [exIssue1] (some exCustomerTS) "b" exTriageBody 99).2.1
        = 200
      ∧ exCustomerTS.role = "CUSTOMER" := by
  decide

/-- C3 (amended): the role-gate middleware, where applied, answers 403 —
never 401 — for an authenticated caller whose role is outside the allow-list
(`authorize` in the TypeScript variant, `requireRole` in the JavaScript
variant), a check distinct from the authentication check (which alone
answers 401); but `PATCH /issues/:id/triage` carries no role gate at all:
its outcome is independent of which authenticated user calls it, so a
customer-role caller is not refused. -/
theorem C3_role_gate :
    (∀ roles u, roles.contains u.role = false →
        authorize roles (some u) = .halt 403 "Insufficient permissions")
    ∧ (∀ roles u s e, authorize roles (some u) = .halt s e → s ≠ 401)
    ∧ (∀ roles u, roles.contains u.role = false →
        requireRole roles (some u) = .halt 403 "Insufficient permissions")
    ∧ (∀ roles u s e, requireRole roles (some u) = .halt s e → s ≠ 401)
    ∧ (∀ users issues u u2 id body now,
        triageRouteTS users issues (some u) id body now
          = triageRouteTS users issues (some u2) id body now) := by
  refine ⟨?_, ?_, ?_, ?_, ?_⟩
  · intro roles u h
    dsimp only [authorize]
    rw [h]
    rfl
  · intro roles u s e h
    dsimp only [authorize] at h
    by_cases hc : roles.contains u.role = true
    · rw [hc] at h
      simp at h
    · rw [Bool.not_eq_true] at hc
      rw [hc] at h
      simp at h
      obtain ⟨h1, _⟩ := h
      omega
  · intro roles u h
    dsimp only [requireRole]
    rw [h]
    rfl
  · intro roles u s e h
    dsimp only [requireRole] at h
    by_cases hc : roles.contains u.role = true
    · rw [hc] at h
      simp at h
    · rw [Bool.not_eq_true] at hc
      rw [hc] at h
      simp at h
      obtain ⟨h1, _⟩ := h
      omega
  · intro users issues u u2 id body now
    rfl

/-- C3 (witness): the role gate evaluated on a customer-role caller against
a support-only allow-list, in both variants. -/
theorem C3_role_gate_witness :
    authorize ["SUPPORT"] (some exCustomerTS)
        = .halt 403 "Insufficient permissions"
      ∧ (403 : Nat) ≠ 401
      ∧ requireRole ["SUPPORT"] (some exCustomerJS)
          = .halt 403 "Insufficient permissions" :=
  ⟨C3_role_gate.1 ["SUPPORT"] exCustomerTS (by decide),
   C3_role_gate.2.1 ["SUPPORT"] exCustomerTS 403 "Insufficient permissions"
     (C3_role_gate.1 ["SUPPORT"] exCustomerTS (by decide)),
   C3_role_gate.2.2.1 ["SUPPORT"] exCustomerJS (by decide)⟩

/-- C4 (counterexample): the claim demands 403 when an authenticated
customer-role caller requests another user's issue; but `GET /issues/:id` of
the TypeScript variant performs no ownership check and answers 200. -/
theorem C4_counterexample :
    getIssueRouteTS [exIssue1] (some exCustomerTS) "b" = (200, some exIssue1)
      ∧ exCustomerTS.role = "CUSTOMER"
      ∧ exIssue1.createdById ≠ exCustomerTS.id := by
  decide

/-- C4 (amended): for an authenticated caller, `GET /issues/:id` answers 404
exactly when no issue has the id and otherwise 200 with the found issue; the
outcome is independent of which authenticated user asks (no ownership 403 in
this route); the ownership rule lives only in the JavaScript variant's
`GET /issues/:id`, where a customer-role caller asking for another user's
issue receives 403. -/
theorem C4_get_issue :
    (∀ issues u id, getIssueRouteTS issues (some u) id = (404, none) ↔
        issues.find? (fun i => i.id == id) = none)
    ∧ (∀ issues u id i, issues.find? (fun i2 => i2.id == id) = some i →
        getIssueRouteTS issues (some u) id = (200, some i))
    ∧ (∀ issues u u2 id, getIssueRouteTS issues (some u) id
        = getIssueRouteTS issues (some u2) id)
    ∧ (∀ issues u id i, issues.find? (fun i2 => i2.id == id) = some i →
        u.role = "CUSTOMER" → i.customerId ≠ u.id →
        getIssueRouteJS issues (some u) id = (403, none)) := by
  refine ⟨?_, ?_, ?_, ?_⟩
  · intro issues u id
    dsimp only [getIssueRouteTS]
    cases hf : issues.find? (fun i => i.id == id) with
    | none => simp
    | some i => simp
  · intro issues u id i hf
    dsimp only [getIssueRouteTS]
    rw [hf]
  · intro issues u u2 id
    rfl
  · intro issues u id i hf hrole hown
    dsimp only [getIssueRouteJS]
    rw [hf]
    simp [hrole, hown]

/-- C4 (witness): the routes evaluated on an existing issue and a
customer-role caller who does not own it. -/
theorem C4_get_issue_witness :
    getIssueRouteTS [exIssue1] (some exSupportTS) "b" = (200, some exIssue1)
      ∧ getIssueRouteJS [exIssueJS] (some exCustomerJS) "j1" = (403, none) :=
  ⟨C4_get_issue.2.1 [exIssue1] exSupportTS "b" exIssue1 (by decide),
   C4_get_issue.2.2.2 [exIssueJS] exCustomerJS "j1" exIssueJS (by decide)
     (by decide) (by decide)⟩

/-- C5: triage on an existing issue with status `RESOLVED` or `CLOSED` sets
`resolvedAt` to the current time (so the returned issue carries a non-null
`resolvedAt`), while any non-terminal status — or no status at all — leaves
`resolvedAt` exactly as it was (a stale value is never cleared); and the
route answers 200 with exactly the update applied to the stored issue. -/
theorem C5_triage_resolvedAt :
    (∀ i sev asg now,
        (applyTriage i sev (some Status.RESOLVED) asg now).resolvedAt
            = some now
          ∧ (applyTriage i sev (some Status.CLOSED) asg now).resolvedAt
            = some now
          ∧ (applyTriage i sev none asg now).resolvedAt = i.resolvedAt
          ∧ (applyTriage i sev (some Status.OPEN) asg now).resolvedAt
            = i.resolvedAt
          ∧ (applyTriage i sev (some Status.TRIAGED) asg now).resolvedAt
            = i.resolvedAt
          ∧ (applyTriage i sev (some Status.IN_PROGRESS) asg now).resolvedAt
            = i.resolvedAt
          ∧ (applyTriage i sev (some Status.ESCALATED) asg now).resolvedAt
            = i.resolvedAt)
    ∧ (∀ users issues u id body now i,
        issues.find? (fun x => x.id == id) = some i →
        (body.assignedTo = none ∨
          ∃ a u2, body.assignedTo = some a ∧
            users.find? (fun v => v.id == a) = some u2) →
        triageRouteTS users issues (some u) id body now
          = (issues.map (fun x => if x.id == id then
                applyTriage i body.severity body.status body.assignedTo now
              else x),
             200,
             some (applyTriage i body.severity body.status body.assignedTo
               now))) := by
  constructor
  · intro i sev asg now
    cases asg <;> simp [applyTriage]
  · intro users issues u id body now i hf hasg
    rcases hasg with hnone | ⟨a, u2, ha, hu⟩
    · simp [triageRouteTS, hf, hnone]
    · simp [triageRouteTS, hf, ha, hu]

/-- C5 (witness): the theorem evaluated on a triage moving an existing issue
to `RESOLVED`. -/
theorem C5_triage_resolvedAt_witness :
    triageRouteTS [] [exIssue1] (some exSupportTS) "b" exTriageResolved 99
      = ([exIssue1].map (fun x => if x.id == "b" then
            applyTriage exIssue1 exTriageResolved.severity
              exTriageResolved.status exTriageResolved.assignedTo 99
          else x),
         200,
         some (applyTriage exIssue1 exTriageResolved.severity
           exTriageResolved.status exTriageResolved.assignedTo 99)) :=
  C5_triage_resolvedAt.2 [] [exIssue1] exSupportTS "b" exTriageResolved 99
    exIssue1 (by decide) (Or.inl rfl)

/-- C6: a triage call on an existing issue whose `assignedTo` names a user
id that does not exist fails with 400 (`Invalid reference`) and performs no
update at all — the issues table is exactly what it was. -/
theorem C6_triage_invalid_reference :
    ∀ users issues u id body now a i,
      body.assignedTo = some a →
      users.find? (fun v => v.id == a) = none →
      issues.find? (fun x => x.id == id) = some i →
      triageRouteTS users issues (some u) id body now = (issues, 400, none) := by
  intro users issues u id body now a i ha hu hf
  simp [triageRouteTS, hf, ha, hu]

/-- C6 (witness): the theorem evaluated on a triage naming assignee
`ghost` while the users table is empty. -/
theorem C6_triage_invalid_reference_witness :
    triageRouteTS [] [exIssue1] (some exSupportTS) "b" exTriageGhost 99
      = ([exIssue1], 400, none) :=
  C6_triage_invalid_reference [] [exIssue1] exSupportTS "b" exTriageGhost 99
    "ghost" exIssue1 (by decide) (by decide) (by decide)

/-- C7 (counterexample): the claim demands that a listing call supplying a
limit outside `[1, 100]` still succeed with the clamped value; but the Joi
rule `min(1).max(100)` rejects, so `limit = 101` fails validation (a 400)
instead of succeeding as 100. -/
theorem C7_counterexample :
    issueFiltersLimit (some 101) = none
      ∧ issueFiltersLimit (some 101) ≠ some 100 := by
  decide

/-- C7 (amended): the effective page size is validated server-side into
`[1, 100]` — an absent limit defaults to 20 and an in-range limit passes
through unchanged — but an out-of-range limit fails validation with 400
rather than being clamped. -/
theorem C7_limit_validation :
    issueFiltersLimit none = some 20
      ∧ (∀ n : Int, 1 ≤ n → n ≤ 100 →
          issueFiltersLimit (some n) = some n.toNat)
      ∧ (∀ n : Int, n < 1 ∨ 100 < n → issueFiltersLimit (some n) = none) := by
  refine ⟨rfl, ?_, ?_⟩
  · intro n h1 h2
    dsimp only [issueFiltersLimit]
    rw [if_pos ⟨h1, h2⟩]
  · intro n h
    dsimp only [issueFiltersLimit]
    rw [if_neg]
    intro hc
    rcases h with h | h
    · exact absurd hc.1 (by omega)
    · exact absurd hc.2 (by omega)

/-- C7 (witness): the theorem evaluated at an in-range and an out-of-range
limit. -/
theorem C7_limit_validation_witness :
    issueFiltersLimit (some 50) = some (Int.toNat 50)
      ∧ issueFiltersLimit (some 0) = none :=
  ⟨C7_limit_validation.2.1 50 (by decide) (by decide),
   C7_limit_validation.2.2 0 (Or.inl (by decide))⟩

/-- C9: every issue created through `POST /issues` has severity `MEDIUM`,
status `OPEN`, a null `resolvedAt` and no assignee, regardless of the
request body; in particular `severity`/`status` keys a caller supplies are
stripped by validation (`stripUnknown`) and never influence the validated
value or the created record. -/
theorem C9_create_defaults :
    (∀ b req userId newId now, validateCreateIssue b = some req →
        (createIssueHandler req userId newId now).severity = Severity.MEDIUM
          ∧ (createIssueHandler req userId newId now).status = Status.OPEN
          ∧ (createIssueHandler req userId newId now).resolvedAt = none
          ∧ (createIssueHandler req userId newId now).assignedToId = none)
    ∧ (∀ b sev st,
        validateCreateIssue { b with severity := sev, status := st }
          = validateCreateIssue b) := by
  constructor
  · intro b req userId newId now _
    exact ⟨rfl, rfl, rfl, rfl⟩
  · intro b sev st
    rfl

/-- C9 (witness): the theorem evaluated on a body that also smuggles
`severity: CRITICAL` and `status: CLOSED`. -/
theorem C9_create_defaults_witness :
    (createIssueHandler exCreateReq "u1" "new1" 42).severity = Severity.MEDIUM
      ∧ (createIssueHandler exCreateReq "u1" "new1" 42).status = Status.OPEN
      ∧ (createIssueHandler exCreateReq "u1" "new1" 42).resolvedAt = none
      ∧ (createIssueHandler exCreateReq "u1" "new1" 42).assignedToId = none :=
  C9_create_defaults.1 exCreateBody exCreateReq "u1" "new1" 42 (by decide)

/-- The database order is a permutation of the filtered rows. -/
theorem sortIssues_perm (l : List Issue) :
    List.Perm (sortIssues l) l :=
  List.perm_insertionSort issueBefore l

/-- The database order is sorted by the descending `(createdAt, id)` key. -/
theorem sortIssues_pairwise (l : List Issue) :
    (sortIssues l).Pairwise issueBefore :=
  List.sorted_insertionSort issueBefore l

/-- Equal sort keys force equal ids. -/
theorem issueKey_eq_id {a b : Issue} (h : issueKey a = issueKey b) :
    a.id = b.id := by
  have h2 := congrArg (fun p => (ofLex p).2) h
  simpa [issueKey] using h2

/-- Everything `cursorSlice` keeps lies strictly after the cursor row in the
sort order, provided the order is sorted, ids are unique, and the cursor id
belongs to the row `issue`. -/
theorem cursorSlice_strict :
    ∀ (l : List Issue) (cid : String) (issue : Issue),
      l.Pairwise issueBefore → (l.map Issue.id).Nodup →
      issue ∈ l → issue.id = cid →
      ∀ row ∈ cursorSlice l cid, issueKey row < issueKey issue := by
  intro l
  induction l with
  | nil =>
    intro cid issue _ _ hmem _ row hrow
    exact absurd hmem (List.not_mem_nil issue)
  | cons r rest ih =>
    intro cid issue hpw hnd hmem hid row hrow
    obtain ⟨hr_rest, hpw_rest⟩ := List.pairwise_cons.mp hpw
    rw [List.map_cons] at hnd
    obtain ⟨hnotmem, hnd_rest⟩ := List.nodup_cons.mp hnd
    rw [cursorSlice] at hrow
    by_cases hrc : (r.id == cid) = true
    · rw [if_pos hrc] at hrow
      have hrid : r.id = cid := by simpa using hrc
      have hieq : issue = r := by
        rcases List.mem_cons.mp hmem with h | h
        · exact h
        · exfalso
          apply hnotmem
          have hin : issue.id ∈ rest.map Issue.id :=
            List.mem_map_of_mem Issue.id h
          rw [hid] at hin
          rw [hrid]
          exact hin
      subst hieq
      refine lt_of_le_of_ne (hr_rest row hrow) ?_
      intro hkeq
      apply hnotmem
      have hrowid : row.id = issue.id := issueKey_eq_id hkeq
      rw [← hrowid]
      exact List.mem_map_of_mem Issue.id hrow
    · rw [if_neg hrc] at hrow
      have hir : issue ≠ r := by
        intro he
        apply hrc
        have hre : r.id = cid := by rw [← he]; exact hid
        simpa using hre
      have hmem2 : issue ∈ rest := by
        rcases List.mem_cons.mp hmem with h | h
        · exact absurd h hir
        · exact h
      exact ih cid issue hpw_rest hnd_rest hmem2 hid row hrow

/-- The delivered page only contains rows the query fetched. -/
theorem buildPage_data_subset (rows : List Issue) (limit : Nat) :
    ∀ x ∈ (buildPage rows limit).data, x ∈ rows := by
  intro x hx
  simp only [buildPage] at hx
  split at hx
  · exact List.take_subset _ _ (List.dropLast_subset _ hx)
  · exact List.take_subset _ _ hx

/-- C2: a malformed cursor — one that does not base64-decode to JSON —
always makes the listing fail with 400 (`Invalid cursor format`); and a
well-formed cursor decoding to the last-seen `(createdAt, id)` pair of a row
in the listing makes the call return only rows strictly after that pair in
the descending `(createdAt, id)` order. -/
theorem C2_cursor_pagination :
    (∀ issues f c limit, decodeCursor c = .malformed →
        listIssuesRouteTS issues f (some c) limit
          = .badRequest "Invalid cursor format")
    ∧ (∀ issues f c limit cid issue,
        decodeCursor c = .ok cid →
        (issues.map Issue.id).Nodup →
        issue ∈ issues → issueMatches f issue = true → issue.id = cid →
        ∀ row ∈ listData (listIssuesRouteTS issues f (some c) limit),
          row.createdAt < issue.createdAt ∨
            (row.createdAt = issue.createdAt ∧ row.id < issue.id)) := by
  constructor
  · intro issues f c limit h
    simp only [listIssuesRouteTS, h]
  · intro issues f c limit cid issue hdec hnd hmem hmatch hid row hrow
    have hroute : listIssuesRouteTS issues f (some c) limit
        = .ok (buildPage
            (cursorSlice (sortIssues (issues.filter (issueMatches f))) cid)
            limit) := by
      simp only [listIssuesRouteTS, hdec]
    rw [hroute] at hrow
    simp only [listData] at hrow
    have hsub : row ∈ cursorSlice (sortIssues (issues.filter (issueMatches f))) cid :=
      buildPage_data_subset _ limit row hrow
    have hperm : List.Perm (sortIssues (issues.filter (issueMatches f)))
        (issues.filter (issueMatches f)) := sortIssues_perm _
    have hpw := sortIssues_pairwise (issues.filter (issueMatches f))
    have hnd_f : ((issues.filter (issueMatches f)).map Issue.id).Nodup :=
      hnd.sublist ((List.filter_sublist issues).map Issue.id)
    have hnd_s : ((sortIssues (issues.filter (issueMatches f))).map
        Issue.id).Nodup :=
      ((hperm.map Issue.id).nodup_iff).mpr hnd_f
    have hmem_s : issue ∈ sortIssues (issues.filter (issueMatches f)) :=
      (hperm.mem_iff).mpr (List.mem_filter.mpr ⟨hmem, hmatch⟩)
    have hlt : issueKey row < issueKey issue :=
      cursorSlice_strict _ cid issue hpw hnd_s hmem_s hid row hsub
    have hlt2 : toLex (row.createdAt, row.id)
        < toLex (issue.createdAt, issue.id) := hlt
    exact (Prod.Lex.lt_iff (row.createdAt, row.id)
      (issue.createdAt, issue.id)).mp hlt2

/-- C2 (witness): the theorem evaluated on a garbage cursor and on the
cursor naming the row with id `b`: the remaining row (`exIssue3`) is
strictly after it. -/
theorem C2_cursor_pagination_witness :
    listIssuesRouteTS [exIssue1, exIssue2, exIssue3] exFilters (some "%%%") 20
        = .badRequest "Invalid cursor format"
      ∧ (exIssue3.createdAt < exIssue1.createdAt ∨
          (exIssue3.createdAt = exIssue1.createdAt ∧
            exIssue3.id < exIssue1.id)) :=
  ⟨C2_cursor_pagination.1 [exIssue1, exIssue2, exIssue3] exFilters "%%%" 20
     (by decide),
   C2_cursor_pagination.2 [exIssue1, exIssue2, exIssue3] exFilters
     "eyJpZCI6ImIifQ==" 20 "b" exIssue1 (by decide) (by decide) (by decide)
     (by decide) rfl exIssue3 (by decide)⟩

end DeliveryIssues
